import Mathlib

/-!
Verification of the order-creation and confirmation workflow of the pharmacy
backend (orders/models.py, orders/serializers.py, orders/views.py,
orders/otp_service.py), as a shallow embedding.

Conventions of the embedding:
- Python Decimal money fields are modelled as exact integers (ℤ) counted in
  minor currency units.  Every monetary computation in the source
  (sub_total, delivery charge, order_total) uses only addition and
  multiplication by an integer quantity, so the Decimal arithmetic is exact
  and closed over this representation.
- Timestamps are modelled as natural numbers (seconds).
- Nullable Django fields are modelled as Option; Python truthiness of an
  optional string (None and the empty string are falsy) is modelled by
  strTruthy.
- Database rows live in explicit lists; a Django transaction.atomic block is
  modelled by an Except value: on error the caller keeps the original
  database state (rollback), on ok the returned state is the commit.
- Randomness (the generated OTP digits), the ambient clock and the SMS
  gateway outcome are supplied as an explicit environment OtpEnv.
-/

deriving instance DecidableEq for Except

namespace Pharmacy

/-- Order.OrderStatus (orders/models.py line 21). -/
inductive OrderStatus
  | PENDING
  | AWAITING_OTP_VERIFICATION
  | AWAITING_PRESCRIPTION
  | PROCESSING
  | SOURCING
  | SHIPPED
  | DELIVERED
  | CANCELLED
  | REFUNDED
deriving DecidableEq

/-- Order.PrescriptionStatus (orders/models.py line 23). -/
inductive PrescriptionStatus
  | NOT_REQUIRED
  | PENDING_UPLOAD
  | PENDING_VERIFICATION
  | VERIFIED
  | REJECTED
deriving DecidableEq

/-- Python truthiness of an optional string: None and the empty string are
falsy, every other string is truthy. -/
def strTruthy : Option String → Bool
  | none => false
  | some s => s != ""

/-- The Order model row (orders/models.py).  Money is in minor currency
units, timestamps in seconds.  pk models the UUID primary key: Django applies
the uuid4 default at instance construction, so an instance built by
Order.objects.create reaches save() with pk already set. -/
structure Order where
  pk : Option ℕ
  user : Option ℕ
  order_number : Option String
  shipping_name : String
  shipping_phone_number : String
  shipping_address_line : String
  shipping_city : String
  shipping_pincode : Option String
  sub_total : ℤ
  delivery_charge_snapshot : ℤ
  order_total : ℤ
  status : OrderStatus
  order_requires_prescription : Bool
  prescription : Option String
  prescription_status : PrescriptionStatus
  payment_method : String
  payment_completed : Bool
  delivery_option : Option ℕ
  tracking_number : Option String
  otp_code : Option String
  otp_expiry : Option ℕ
  is_otp_verified : Bool
  created_at : ℕ
deriving DecidableEq

/-- Order.is_otp_valid (orders/models.py lines 64-68), line by line:
returns False when otp_code or otp_expiry is falsy, when the submitted code
is falsy or of different length than the stored code, or when now is
strictly after the expiry; otherwise compares the strings. -/
def Order.is_otp_valid (o : Order) (now : ℕ) (submitted_otp : Option String) : Bool :=
  match o.otp_code, o.otp_expiry with
  | some code, some expiry =>
    if code = "" then false
    else
      match submitted_otp with
      | none => false
      | some s =>
        if s = "" ∨ s.length ≠ code.length then false
        else if expiry < now then false
        else decide (code = s)
  | _, _ => false

/-- The values the save() override derives from timezone.now(): the strftime
%y%m%d date string and the bounds of the current calendar day. -/
structure Today where
  ymd : String
  dayStart : ℕ
  dayEnd : ℕ
deriving DecidableEq

/-- The queryset filter of Order.save (orders/models.py line 76):
created_at within today and order_number starting with the date string
(a NULL order_number never matches a startswith filter). -/
def matchesToday (t : Today) (o : Order) : Bool :=
  decide (t.dayStart ≤ o.created_at) && decide (o.created_at < t.dayEnd) &&
    (match o.order_number with
     | some n => n.startsWith t.ymd
     | none => false)

/-- order_by('-order_number').first(): the row whose order_number is maximal
in string order. -/
def maxByOrderNumber : List Order → Option Order
  | [] => none
  | o :: os =>
    match maxByOrderNumber os with
    | none => some o
    | some m =>
      if (m.order_number.getD "") < (o.order_number.getD "") then some o else some m

/-- The f-string %04d padding: decimal digits, zero-padded to width at least
four. -/
def pad4 (n : ℕ) : String :=
  let s := toString n
  if s.length < 4 then String.mk (List.replicate (4 - s.length) '0') ++ s else s

/-- The next_seq computation of Order.save (orders/models.py lines 77-80):
split the previous number on '-', parse the final component as a decimal
integer and increment; on any parse failure silently keep 1. -/
def nextSeq (last_order : Option Order) : ℕ :=
  match last_order with
  | none => 1
  | some lo =>
    match lo.order_number with
    | none => 1
    | some n =>
      if n = "" then 1
      else
        match ((n.splitOn "-").getLastD "").toNat? with
        | some k => k + 1
        | none => 1

/-- Order.save (orders/models.py lines 70-86): the order-number branch runs
only when order_number is falsy AND pk is falsy; it then allocates
today_str-NNNN from the highest existing number of the day.  The db argument
is the list of already persisted orders the queryset sees. -/
def Order.save (db : List Order) (t : Today) (o : Order) : Order :=
  if strTruthy o.order_number = false ∧ o.pk = none then
    let seq := nextSeq (maxByOrderNumber (db.filter (matchesToday t)))
    { o with order_number := some (t.ymd ++ "-" ++ pad4 seq) }
  else o

/-- OTP_LENGTH (orders/otp_service.py line 12). -/
def OTP_LENGTH : ℕ := 6

/-- OTP_EXPIRY_MINUTES (orders/otp_service.py line 13). -/
def OTP_EXPIRY_MINUTES : ℕ := 5

/-- The ambient effects of otp_service.send_order_otp: the digits produced
by generate_otp, the current time, and whether the (simulated) SMS gateway
reports success. -/
structure OtpEnv where
  otp : String
  now : ℕ
  smsSuccess : Bool
deriving DecidableEq

/-- send_order_otp (orders/otp_service.py lines 20-75): returns False
without touching the order when the shipping phone number is falsy;
otherwise stores the OTP code, a now+5min expiry, resets is_otp_verified,
moves the status to AWAITING_OTP_VERIFICATION, and returns the gateway
outcome.  The pair is (order row as saved, returned boolean). -/
def send_order_otp (env : OtpEnv) (order : Order) : Order × Bool :=
  if order.shipping_phone_number = "" then (order, false)
  else
    ({ order with
        otp_code := some env.otp,
        otp_expiry := some (env.now + OTP_EXPIRY_MINUTES * 60),
        is_otp_verified := false,
        status := OrderStatus.AWAITING_OTP_VERIFICATION },
     env.smsSuccess)

/-- The columns of products.Product consumed by the order serializer
(products/models.py; the .values(...) projection of validate_items). -/
structure Product where
  id : ℕ
  sku : String
  selling_price : ℤ
  name : String
  is_available : Bool
  requires_prescription : Bool
deriving DecidableEq

/-- One entry of the items input list (OrderItemCreateSerializer):
sku plus a quantity of at least 1 enforced by the field validator. -/
structure ItemInput where
  sku : String
  quantity : ℕ
deriving DecidableEq

/-- One validated item as built by OrderCreateSerializer.validate_items. -/
structure ValidatedItem where
  sku : String
  quantity : ℕ
  product_id : ℕ
  price_per_item : ℤ
  product_name_snapshot : String
deriving DecidableEq

/-- The sku_map lookup of validate_items; Product.sku is unique
(products/models.py line 56), so a list search models the dict. -/
def skuLookup (catalog : List Product) (sku : String) : Option Product :=
  catalog.find? (fun p => p.sku == sku)

/-- The per-item loop of OrderCreateSerializer.validate_items
(orders/serializers.py lines 47-54): first unknown or unavailable sku
raises; the requires-prescription flag is the disjunction over all items. -/
def validateItemsLoop (catalog : List Product) :
    List ItemInput → Except String (List ValidatedItem × Bool)
  | [] => .ok ([], false)
  | item :: rest =>
    match skuLookup catalog item.sku with
    | none => .error ("Product SKU '" ++ item.sku ++ "' not found.")
    | some info =>
      if info.is_available = false then
        .error ("Product '" ++ info.name ++ "' unavailable.")
      else
        match validateItemsLoop catalog rest with
        | .error e => .error e
        | .ok (vs, flag) =>
          .ok ({ sku := item.sku, quantity := item.quantity, product_id := info.id,
                 price_per_item := info.selling_price,
                 product_name_snapshot := info.name } :: vs,
               info.requires_prescription || flag)

/-- OrderCreateSerializer.validate_items (orders/serializers.py lines
41-56).  The returned Bool is the _requires_prescription side flag. -/
def validate_items (catalog : List Product) (items_data : List ItemInput) :
    Except String (List ValidatedItem × Bool) :=
  if items_data.isEmpty then .error "Order must contain at least one item."
  else validateItemsLoop catalog items_data

/-- The columns of shipping_delivery.DeliveryOption consumed here. -/
structure DeliveryOption where
  pk : ℕ
  base_charge : ℤ
  is_active : Bool
deriving DecidableEq

/-- OrderCreateSerializer.validate_delivery_option_id (orders/serializers.py
lines 58-68): None passes through; otherwise the id must resolve to an
active option. -/
def validate_delivery_option_id (options : List DeliveryOption) :
    Option ℕ → Except String (Option DeliveryOption)
  | none => .ok none
  | some v =>
    match options.find? (fun d => d.pk == v && d.is_active) with
    | some option => .ok (some option)
    | none => .error "Invalid or inactive Delivery Option ID."

/-- The columns of addresses.Address consumed by the order serializer. -/
structure Address where
  pk : ℕ
  user : ℕ
  address_line : String
  city : String
  pincode : Option String
  contact_name : String
  contact_phone : String
deriving DecidableEq

/-- The request body of POST /orders as seen after field deserialization
(OrderCreateSerializer input fields).  Optional text fields keep their
absent/blank distinction for Python truthiness. -/
structure CreateRequest where
  address_id : Option ℕ
  shipping_name : Option String
  shipping_phone_number : Option String
  shipping_address_line : Option String
  shipping_city : Option String
  shipping_pincode : Option String
  payment_method : Option String
  items : List ItemInput
  prescription_upload : Option String
  delivery_option_id : Option ℕ
deriving DecidableEq

/-- shipping_provided of OrderCreateSerializer.validate (line 72): all four
core shipping fields present and truthy. -/
def shippingProvided (req : CreateRequest) : Bool :=
  strTruthy req.shipping_name && strTruthy req.shipping_phone_number &&
    strTruthy req.shipping_address_line && strTruthy req.shipping_city

/-- OrderCreateSerializer.validate (orders/serializers.py lines 70-81):
exactly one shipping target, address ownership, then the prescription-file
requirement.  Returns the fetched address instance (the
_validated_address_instance side channel). -/
def validateObject (addresses : List Address) (userId : ℕ) (requiresRx : Bool)
    (req : CreateRequest) : Except String (Option Address) :=
  if req.address_id.isSome && shippingProvided req then
    .error "Provide address_id or shipping details, not both."
  else if !req.address_id.isSome && !shippingProvided req then
    .error "Address ID or full shipping details required."
  else
    let fetched : Except String (Option Address) :=
      match req.address_id with
      | some aid =>
        match addresses.find? (fun a => a.pk == aid && a.user == userId) with
        | some a => .ok (some a)
        | none =>
          .error "address_id: Invalid address ID or address does not belong to user."
      | none => .ok none
    match fetched with
    | .error e => .error e
    | .ok addr =>
      if requiresRx && req.prescription_upload.isNone then
        .error "prescription_upload: Prescription file required."
      else .ok addr

/-- sub_total of OrderCreateSerializer.create (line 93): the exact sum of
price_per_item * quantity over the validated items. -/
def itemsSubTotal (items_data : List ValidatedItem) : ℤ :=
  (items_data.map (fun i => i.price_per_item * (i.quantity : ℤ))).sum

/-- delivery_charge of OrderCreateSerializer.create (lines 96-98):
the chosen option's base_charge, or zero when no option was selected. -/
def deliveryCharge : Option DeliveryOption → ℤ
  | some option => option.base_charge
  | none => 0

/-- rx_status of OrderCreateSerializer.create (line 109). -/
def rxStatus (requiresRx : Bool) (upload : Option String) : PrescriptionStatus :=
  if requiresRx && upload.isSome then PrescriptionStatus.PENDING_VERIFICATION
  else if requiresRx then PrescriptionStatus.PENDING_UPLOAD
  else PrescriptionStatus.NOT_REQUIRED

/-- The Order.objects.create(...) argument block of
OrderCreateSerializer.create (lines 104-124), including the shipping
snapshot taken from the saved address or the ad-hoc fields, with the
UUID pk default already applied (newPk). -/
def assembleOrder (nowTs : ℕ) (userId newPk : ℕ) (req : CreateRequest)
    (items_data : List ValidatedItem) (requiresRx : Bool)
    (address : Option Address) (delivery_option : Option DeliveryOption) : Order :=
  { pk := some newPk
    user := some userId
    order_number := none
    shipping_name :=
      match address with
      | some a => a.contact_name
      | none => (req.shipping_name).getD ""
    shipping_phone_number :=
      match address with
      | some a => a.contact_phone
      | none => (req.shipping_phone_number).getD ""
    shipping_address_line :=
      match address with
      | some a => a.address_line
      | none => (req.shipping_address_line).getD ""
    shipping_city :=
      match address with
      | some a => a.city
      | none => (req.shipping_city).getD ""
    shipping_pincode :=
      match address with
      | some a => a.pincode
      | none => req.shipping_pincode
    sub_total := itemsSubTotal items_data
    delivery_charge_snapshot := deliveryCharge delivery_option
    order_total := itemsSubTotal items_data + deliveryCharge delivery_option
    status := OrderStatus.PENDING
    order_requires_prescription := requiresRx
    prescription := none
    prescription_status := rxStatus requiresRx req.prescription_upload
    payment_method := (req.payment_method).getD "COD"
    payment_completed := false
    delivery_option := delivery_option.map (fun d => d.pk)
    tracking_number := none
    otp_code := none
    otp_expiry := none
    is_otp_verified := false
    created_at := nowTs }

/-- One persisted OrderItem row (orders/models.py lines 97-109); snapshots
are passed explicitly by the serializer, and bulk_create bypasses
OrderItem.save. -/
structure OrderItemRec where
  order_pk : ℕ
  product_id : ℕ
  price_per_item : ℤ
  quantity : ℕ
  product_name_snapshot : String
  product_sku_snapshot : String
deriving DecidableEq

/-- The relational store the workflow touches. -/
structure DB where
  orders : List Order
  order_items : List OrderItemRec
deriving DecidableEq

/-- Lines 127-129 of OrderCreateSerializer.create: when a prescription file
was uploaded it is assigned to the row and saved (update_fields includes
only the prescription column). -/
def applyPrescription (upload : Option String) (o : Order) : Order :=
  if upload.isSome then { o with prescription := upload } else o

/-- OrderCreateSerializer.create (orders/serializers.py lines 83-140), the
body of the transaction.atomic block.  An ok result is the committed order
and database; an error result models the raised ValidationError, which
rolls the whole transaction back. -/
def create (db : DB) (t : Today) (env : OtpEnv) (userId newPk : ℕ)
    (req : CreateRequest) (items_data : List ValidatedItem) (requiresRx : Bool)
    (address : Option Address) (delivery_option : Option DeliveryOption) :
    Except String (Order × DB) :=
  let order2 := applyPrescription req.prescription_upload (Order.save db.orders t
    (assembleOrder env.now userId newPk req items_data requiresRx address delivery_option))
  let newItems := items_data.map (fun i =>
    ({ order_pk := newPk, product_id := i.product_id, price_per_item := i.price_per_item,
       quantity := i.quantity, product_name_snapshot := i.product_name_snapshot,
       product_sku_snapshot := i.sku } : OrderItemRec))
  let sent := send_order_otp env order2
  if sent.2 then
    .ok (sent.1, { orders := db.orders ++ [sent.1], order_items := db.order_items ++ newItems })
  else
    .error "Failed to send order confirmation OTP. Please check order status or contact support."

/-- The full validation-then-create pipeline of a POST /orders request:
field validators (validate_items, validate_delivery_option_id), the
object-level validate, then the atomic create. -/
def orderCreate (catalog : List Product) (addresses : List Address)
    (options : List DeliveryOption) (db : DB) (t : Today) (env : OtpEnv)
    (userId newPk : ℕ) (req : CreateRequest) : Except String (Order × DB) :=
  match validate_items catalog req.items with
  | .error e => .error e
  | .ok (items_data, requiresRx) =>
    match validate_delivery_option_id options req.delivery_option_id with
    | .error e => .error e
    | .ok delivery_option =>
      match validateObject addresses userId requiresRx req with
      | .error e => .error e
      | .ok address =>
        create db t env userId newPk req items_data requiresRx address delivery_option

/-- The observable outcome of POST /orders: the response (created order or
error) together with the database state after the request.  On any error the
transaction.atomic block has rolled back, so the state is the original db. -/
def orderCreateEndpoint (catalog : List Product) (addresses : List Address)
    (options : List DeliveryOption) (db : DB) (t : Today) (env : OtpEnv)
    (userId newPk : ℕ) (req : CreateRequest) : Except String Order × DB :=
  match orderCreate catalog addresses options db t env userId newPk req with
  | .ok (o, db') => (.ok o, db')
  | .error e => (.error e, db)

/-- True exactly on an error result. -/
def isErr {α : Type} : Except String α → Bool
  | .error _ => true
  | .ok _ => false

/-- OrderOtpVerifySerializer (orders/serializers.py lines 143-147): the
submitted code must have exactly OTP_LENGTH characters, all decimal digits. -/
def otpCodeWellFormed (s : String) : Bool :=
  (s.length == OTP_LENGTH) && s.data.all Char.isDigit

/-- The HTTP outcome of POST /orders/id/verify-otp. -/
inductive VerifyResponse
  | verified
  | badState
  | malformed
  | invalidOtp
deriving DecidableEq

/-- OrderOtpVerifyView.post (orders/views.py lines 63-90): state
precondition, input validation, OTP check, then the success update of
exactly is_otp_verified, status, otp_code and otp_expiry.  The pair is the
response and the order row after the call. -/
def orderOtpVerifyPost (o : Order) (now : ℕ) (submitted : String) :
    VerifyResponse × Order :=
  if o.status ≠ OrderStatus.AWAITING_OTP_VERIFICATION then
    (VerifyResponse.badState, o)
  else if otpCodeWellFormed submitted = false then
    (VerifyResponse.malformed, o)
  else if o.is_otp_valid now (some submitted) then
    (VerifyResponse.verified,
     { o with
        is_otp_verified := true,
        status :=
          if o.order_requires_prescription = true ∧
              o.prescription_status ≠ PrescriptionStatus.VERIFIED then
            OrderStatus.AWAITING_PRESCRIPTION
          else OrderStatus.PROCESSING,
        otp_code := none,
        otp_expiry := none })
  else
    (VerifyResponse.invalidOtp, o)

/-- A concrete non-prescription product for concrete runs. -/
def sampleProduct : Product :=
  { id := 1, sku := "P1", selling_price := 100, name := "Panadol",
    is_available := true, requires_prescription := false }

/-- A concrete prescription-requiring product. -/
def rxProduct : Product :=
  { id := 2, sku := "P2", selling_price := 50, name := "Augmentin",
    is_available := true, requires_prescription := true }

/-- The concrete catalog used by the witnesses. -/
def sampleCatalog : List Product := [sampleProduct, rxProduct]

/-- A concrete active delivery option with base charge 50. -/
def sampleOption : DeliveryOption := { pk := 1, base_charge := 50, is_active := true }

/-- A concrete calendar day. -/
def sampleToday : Today := { ymd := "251012", dayStart := 0, dayEnd := 86400 }

/-- A concrete effect environment where the SMS gateway succeeds. -/
def sampleEnv : OtpEnv := { otp := "123456", now := 1000, smsSuccess := true }

/-- A concrete effect environment where the SMS gateway fails. -/
def sampleEnvSmsFail : OtpEnv := { otp := "123456", now := 1000, smsSuccess := false }

/-- The empty database. -/
def emptyDB : DB := { orders := [], order_items := [] }

/-- A concrete valid request: two units of P1, ad-hoc shipping, delivery
option 1, no prescription file. -/
def sampleReq : CreateRequest :=
  { address_id := none, shipping_name := some "Ali",
    shipping_phone_number := some "0300", shipping_address_line := some "Street 1",
    shipping_city := some "Lahore", shipping_pincode := none,
    payment_method := none, items := [{ sku := "P1", quantity := 2 }],
    prescription_upload := none, delivery_option_id := some 1 }

/-- The order that sampleReq produces (user 3, fresh pk 7). -/
def sampleCreatedOrder : Order :=
  { pk := some 7, user := some 3, order_number := none,
    shipping_name := "Ali", shipping_phone_number := "0300",
    shipping_address_line := "Street 1", shipping_city := "Lahore",
    shipping_pincode := none,
    sub_total := 200, delivery_charge_snapshot := 50, order_total := 250,
    status := OrderStatus.AWAITING_OTP_VERIFICATION,
    order_requires_prescription := false, prescription := none,
    prescription_status := PrescriptionStatus.NOT_REQUIRED,
    payment_method := "COD", payment_completed := false,
    delivery_option := some 1, tracking_number := none,
    otp_code := some "123456", otp_expiry := some 1300,
    is_otp_verified := false, created_at := 1000 }

/-- The order-item row that sampleReq produces. -/
def sampleItemRec : OrderItemRec :=
  { order_pk := 7, product_id := 1, price_per_item := 100, quantity := 2,
    product_name_snapshot := "Panadol", product_sku_snapshot := "P1" }

/-- The database after the sampleReq creation commits. -/
def sampleDB1 : DB := { orders := [sampleCreatedOrder], order_items := [sampleItemRec] }

/-- A concrete request containing the prescription-requiring product and no
prescription file. -/
def rxReq : CreateRequest :=
  { address_id := none, shipping_name := some "Ali",
    shipping_phone_number := some "0300", shipping_address_line := some "Street 1",
    shipping_city := some "Lahore", shipping_pincode := none,
    payment_method := none, items := [{ sku := "P2", quantity := 1 }],
    prescription_upload := none, delivery_option_id := none }

/-- A concrete persisted order used by the verify-otp witnesses. -/
def baseOrder : Order :=
  { pk := some 7, user := some 3, order_number := none,
    shipping_name := "Ali", shipping_phone_number := "0300",
    shipping_address_line := "Street 1", shipping_city := "Lahore",
    shipping_pincode := none,
    sub_total := 200, delivery_charge_snapshot := 50, order_total := 250,
    status := OrderStatus.PENDING,
    order_requires_prescription := false, prescription := none,
    prescription_status := PrescriptionStatus.NOT_REQUIRED,
    payment_method := "COD", payment_completed := false,
    delivery_option := some 1, tracking_number := none,
    otp_code := none, otp_expiry := none,
    is_otp_verified := false, created_at := 1000 }

/-- baseOrder as it looks while awaiting OTP verification. -/
def awaitingOrder : Order :=
  { baseOrder with
      status := OrderStatus.AWAITING_OTP_VERIFICATION,
      otp_code := some "123456", otp_expiry := some 1300 }

/-- Claim C3 counterexample: the stored OTP still validates at the exact
expiry instant (now = otp_expiry = 1300), so "the current time is strictly
before the stored expiry" is not necessary for is_otp_valid to return true:
the code only rejects times strictly after the expiry. -/
theorem C3_counterexample :
    awaitingOrder.is_otp_valid 1300 (some "123456") = true ∧ ¬(1300 < 1300) :=
  ⟨by decide, by decide⟩

/-- Claim C3 (amended): is_otp_valid returns true iff an OTP code exists on
the order (non-null, non-empty), an expiry exists, the submitted code's
length equals the stored code's length, the current time is at or before
the stored expiry (not after it), and the submitted code equals the stored
code exactly. -/
theorem C3_otp_validate_iff (o : Order) (now : ℕ) (sub : Option String) :
    o.is_otp_valid now sub = true ↔
      ∃ code expiry s, o.otp_code = some code ∧ code ≠ "" ∧
        o.otp_expiry = some expiry ∧ sub = some s ∧
        s.length = code.length ∧ now ≤ expiry ∧ s = code := by
  cases hc : o.otp_code with
  | none => simp [Order.is_otp_valid, hc]
  | some code =>
    cases he : o.otp_expiry with
    | none => simp [Order.is_otp_valid, hc, he]
    | some expiry =>
      cases hs : sub with
      | none => simp [Order.is_otp_valid, hc, he, hs]
      | some s =>
        simp only [Order.is_otp_valid, hc, he, hs, Option.some.injEq]
        constructor
        · intro h
          by_cases h1 : code = ""
          · rw [if_pos h1] at h; exact absurd h (by simp)
          · rw [if_neg h1] at h
            by_cases h2 : s = "" ∨ s.length ≠ code.length
            · rw [if_pos h2] at h; exact absurd h (by simp)
            · rw [if_neg h2] at h
              by_cases h3 : expiry < now
              · rw [if_pos h3] at h; exact absurd h (by simp)
              · rw [if_neg h3] at h
                refine ⟨code, expiry, s, rfl, h1, rfl, rfl, ?_, Nat.le_of_not_lt h3,
                  (of_decide_eq_true h).symm⟩
                exact not_or.mp h2 |>.2 |> not_not.mp
        · rintro ⟨code', expiry', s', hcode, hne, hexp, hsub, hlen, hle, heq⟩
          obtain rfl := hcode
          obtain rfl := hexp
          obtain rfl := hsub
          rw [if_neg hne, if_neg (by simp [hlen, heq, hne]), if_neg (Nat.not_lt.mpr hle)]
          exact decide_eq_true heq.symm

/-- Claim C10: is_otp_valid returns false whenever otp_expiry is null (even
with a stored code), and whenever the submitted code is None or empty; the
embedding is a total function, matching the source, which can raise on no
input in this signature. -/
theorem C10_otp_edge_false (o : Order) (now : ℕ) (sub : Option String)
    (h : o.otp_expiry = none ∨ sub = none ∨ sub = some "") :
    o.is_otp_valid now sub = false := by
  rcases h with h | h | h
  · cases hc : o.otp_code <;> simp [Order.is_otp_valid, hc, h]
  · subst h
    cases hc : o.otp_code <;> cases he : o.otp_expiry <;>
      simp [Order.is_otp_valid, hc, he]
  · subst h
    cases hc : o.otp_code <;> cases he : o.otp_expiry <;>
      simp [Order.is_otp_valid, hc, he]

/-- Witness for C10 at concrete inputs: no stored expiry, submitted None,
submitted empty. -/
theorem C10_witness :
    baseOrder.is_otp_valid 0 (some "123456") = false ∧
    awaitingOrder.is_otp_valid 1200 none = false ∧
    awaitingOrder.is_otp_valid 1200 (some "") = false :=
  ⟨C10_otp_edge_false baseOrder 0 (some "123456") (Or.inl rfl),
   C10_otp_edge_false awaitingOrder 1200 none (Or.inr (Or.inl rfl)),
   C10_otp_edge_false awaitingOrder 1200 (some "") (Or.inr (Or.inr rfl))⟩

/-- Claim C7: verify-otp on an order whose status is not
AWAITING_OTP_VERIFICATION answers with the invalid-state error and returns
the order row completely unchanged. -/
theorem C7_verify_wrong_state (o : Order) (now : ℕ) (s : String)
    (h : o.status ≠ OrderStatus.AWAITING_OTP_VERIFICATION) :
    orderOtpVerifyPost o now s = (VerifyResponse.badState, o) := by
  unfold orderOtpVerifyPost
  rw [if_pos h]

/-- Witness for C7: a PENDING order. -/
theorem C7_witness :
    orderOtpVerifyPost baseOrder 0 "123456" = (VerifyResponse.badState, baseOrder) :=
  C7_verify_wrong_state baseOrder 0 "123456" (by decide)

/-- Claim C8: verify-otp on an awaiting order with a well-formed code that
fails OTP validation answers with the generic invalid-or-expired error and
leaves the order row (status and all OTP fields included) unchanged. -/
theorem C8_verify_invalid_otp (o : Order) (now : ℕ) (s : String)
    (h1 : o.status = OrderStatus.AWAITING_OTP_VERIFICATION)
    (h2 : otpCodeWellFormed s = true)
    (h3 : o.is_otp_valid now (some s) = false) :
    orderOtpVerifyPost o now s = (VerifyResponse.invalidOtp, o) := by
  unfold orderOtpVerifyPost
  rw [if_neg (by simp [h1]), if_neg (by simp [h2]), if_neg (by simp [h3])]

/-- Witness for C8: the correct digits submitted after expiry
(expiry 1300, now 2000). -/
theorem C8_witness :
    orderOtpVerifyPost awaitingOrder 2000 "123456" =
      (VerifyResponse.invalidOtp, awaitingOrder) :=
  C8_verify_invalid_otp awaitingOrder 2000 "123456" (by decide) (by decide) (by decide)

/-- Claim C4: a successful verify-otp on an awaiting order sets
is_otp_verified, clears otp_code and otp_expiry, moves the status to
AWAITING_PRESCRIPTION exactly when the order requires a prescription whose
status is not VERIFIED and to PROCESSING otherwise, and changes no other
field of the row. -/
theorem C4_verify_success (o : Order) (now : ℕ) (s : String)
    (h1 : o.status = OrderStatus.AWAITING_OTP_VERIFICATION)
    (h2 : otpCodeWellFormed s = true)
    (h3 : o.is_otp_valid now (some s) = true) :
    (orderOtpVerifyPost o now s).1 = VerifyResponse.verified ∧
    (orderOtpVerifyPost o now s).2.is_otp_verified = true ∧
    (orderOtpVerifyPost o now s).2.otp_code = none ∧
    (orderOtpVerifyPost o now s).2.otp_expiry = none ∧
    (o.order_requires_prescription = true ∧
        o.prescription_status ≠ PrescriptionStatus.VERIFIED →
      (orderOtpVerifyPost o now s).2.status = OrderStatus.AWAITING_PRESCRIPTION) ∧
    (¬(o.order_requires_prescription = true ∧
        o.prescription_status ≠ PrescriptionStatus.VERIFIED) →
      (orderOtpVerifyPost o now s).2.status = OrderStatus.PROCESSING) ∧
    (orderOtpVerifyPost o now s).2.pk = o.pk ∧
    (orderOtpVerifyPost o now s).2.user = o.user ∧
    (orderOtpVerifyPost o now s).2.order_number = o.order_number ∧
    (orderOtpVerifyPost o now s).2.shipping_name = o.shipping_name ∧
    (orderOtpVerifyPost o now s).2.shipping_phone_number = o.shipping_phone_number ∧
    (orderOtpVerifyPost o now s).2.shipping_address_line = o.shipping_address_line ∧
    (orderOtpVerifyPost o now s).2.shipping_city = o.shipping_city ∧
    (orderOtpVerifyPost o now s).2.shipping_pincode = o.shipping_pincode ∧
    (orderOtpVerifyPost o now s).2.sub_total = o.sub_total ∧
    (orderOtpVerifyPost o now s).2.delivery_charge_snapshot = o.delivery_charge_snapshot ∧
    (orderOtpVerifyPost o now s).2.order_total = o.order_total ∧
    (orderOtpVerifyPost o now s).2.order_requires_prescription =
      o.order_requires_prescription ∧
    (orderOtpVerifyPost o now s).2.prescription = o.prescription ∧
    (orderOtpVerifyPost o now s).2.prescription_status = o.prescription_status ∧
    (orderOtpVerifyPost o now s).2.payment_method = o.payment_method ∧
    (orderOtpVerifyPost o now s).2.payment_completed = o.payment_completed ∧
    (orderOtpVerifyPost o now s).2.delivery_option = o.delivery_option ∧
    (orderOtpVerifyPost o now s).2.tracking_number = o.tracking_number ∧
    (orderOtpVerifyPost o now s).2.created_at = o.created_at := by
  have hred : orderOtpVerifyPost o now s =
      (VerifyResponse.verified,
       { o with
          is_otp_verified := true,
          status :=
            if o.order_requires_prescription = true ∧
                o.prescription_status ≠ PrescriptionStatus.VERIFIED then
              OrderStatus.AWAITING_PRESCRIPTION
            else OrderStatus.PROCESSING,
          otp_code := none,
          otp_expiry := none }) := by
    unfold orderOtpVerifyPost
    rw [if_neg (by simp [h1]), if_neg (by simp [h2]), if_pos h3]
  rw [hred]
  refine ⟨rfl, rfl, rfl, rfl, ?_, ?_, rfl, rfl, rfl, rfl, rfl, rfl, rfl, rfl, rfl,
    rfl, rfl, rfl, rfl, rfl, rfl, rfl, rfl, rfl, rfl⟩
  · intro hc
    simp only [if_pos hc]
  · intro hc
    simp only [if_neg hc]

/-- Witness for C4: correct unexpired code on a non-prescription order moves
it to PROCESSING with the OTP fields cleared. -/
theorem C4_witness :
    (orderOtpVerifyPost awaitingOrder 1200 "123456").1 = VerifyResponse.verified ∧
    (orderOtpVerifyPost awaitingOrder 1200 "123456").2.status = OrderStatus.PROCESSING ∧
    (orderOtpVerifyPost awaitingOrder 1200 "123456").2.otp_code = none ∧
    (orderOtpVerifyPost awaitingOrder 1200 "123456").2.otp_expiry = none ∧
    (orderOtpVerifyPost awaitingOrder 1200 "123456").2.is_otp_verified = true := by
  have h := C4_verify_success awaitingOrder 1200 "123456" (by decide) (by decide) (by decide)
  exact ⟨h.1, h.2.2.2.2.2.1 (by decide), h.2.2.1, h.2.2.2.1, h.2.1⟩

/-- Order.save never changes sub_total. -/
@[simp] theorem Order.save_sub_total (db : List Order) (t : Today) (o : Order) :
    (Order.save db t o).sub_total = o.sub_total := by
  unfold Order.save; split <;> rfl

/-- Order.save never changes delivery_charge_snapshot. -/
@[simp] theorem Order.save_delivery_charge (db : List Order) (t : Today) (o : Order) :
    (Order.save db t o).delivery_charge_snapshot = o.delivery_charge_snapshot := by
  unfold Order.save; split <;> rfl

/-- Order.save never changes order_total. -/
@[simp] theorem Order.save_order_total (db : List Order) (t : Today) (o : Order) :
    (Order.save db t o).order_total = o.order_total := by
  unfold Order.save; split <;> rfl

/-- Order.save never changes order_requires_prescription. -/
@[simp] theorem Order.save_requires_rx (db : List Order) (t : Today) (o : Order) :
    (Order.save db t o).order_requires_prescription = o.order_requires_prescription := by
  unfold Order.save; split <;> rfl

/-- Order.save never changes prescription_status. -/
@[simp] theorem Order.save_rx_status (db : List Order) (t : Today) (o : Order) :
    (Order.save db t o).prescription_status = o.prescription_status := by
  unfold Order.save; split <;> rfl

/-- When the primary key is already set, the order-number branch of
Order.save does not run at all. -/
theorem Order.save_of_pk_some (db : List Order) (t : Today) (o : Order)
    (h : o.pk ≠ none) : Order.save db t o = o := by
  unfold Order.save
  rw [if_neg]
  rintro ⟨-, h2⟩
  exact h h2

/-- applyPrescription only touches the prescription column. -/
@[simp] theorem applyPrescription_sub_total (u : Option String) (o : Order) :
    (applyPrescription u o).sub_total = o.sub_total := by
  unfold applyPrescription; split <;> rfl

/-- applyPrescription only touches the prescription column. -/
@[simp] theorem applyPrescription_delivery_charge (u : Option String) (o : Order) :
    (applyPrescription u o).delivery_charge_snapshot = o.delivery_charge_snapshot := by
  unfold applyPrescription; split <;> rfl

/-- applyPrescription only touches the prescription column. -/
@[simp] theorem applyPrescription_order_total (u : Option String) (o : Order) :
    (applyPrescription u o).order_total = o.order_total := by
  unfold applyPrescription; split <;> rfl

/-- applyPrescription only touches the prescription column. -/
@[simp] theorem applyPrescription_requires_rx (u : Option String) (o : Order) :
    (applyPrescription u o).order_requires_prescription = o.order_requires_prescription := by
  unfold applyPrescription; split <;> rfl

/-- applyPrescription only touches the prescription column. -/
@[simp] theorem applyPrescription_rx_status (u : Option String) (o : Order) :
    (applyPrescription u o).prescription_status = o.prescription_status := by
  unfold applyPrescription; split <;> rfl

/-- applyPrescription only touches the prescription column. -/
@[simp] theorem applyPrescription_order_number (u : Option String) (o : Order) :
    (applyPrescription u o).order_number = o.order_number := by
  unfold applyPrescription; split <;> rfl

/-- A true second component of send_order_otp means the phone number was
truthy and the gateway succeeded, and gives the saved row explicitly. -/
theorem send_order_otp_sent (env : OtpEnv) (o : Order)
    (h : (send_order_otp env o).2 = true) :
    env.smsSuccess = true ∧ o.shipping_phone_number ≠ "" ∧
    (send_order_otp env o).1 =
      { o with otp_code := some env.otp,
               otp_expiry := some (env.now + OTP_EXPIRY_MINUTES * 60),
               is_otp_verified := false,
               status := OrderStatus.AWAITING_OTP_VERIFICATION } := by
  unfold send_order_otp at h ⊢
  by_cases hp : o.shipping_phone_number = ""
  · rw [if_pos hp] at h
    exact absurd h (by simp)
  · rw [if_neg hp] at h ⊢
    exact ⟨h, hp, rfl⟩

/-- Everything a successful run of the atomic create body determines about
the committed order row. -/
theorem create_ok_fields (db : DB) (t : Today) (env : OtpEnv) (userId newPk : ℕ)
    (req : CreateRequest) (items_data : List ValidatedItem) (requiresRx : Bool)
    (address : Option Address) (delivery_option : Option DeliveryOption)
    (o : Order) (db' : DB)
    (h : create db t env userId newPk req items_data requiresRx address delivery_option =
      .ok (o, db')) :
    env.smsSuccess = true ∧
    o.sub_total = itemsSubTotal items_data ∧
    o.delivery_charge_snapshot = deliveryCharge delivery_option ∧
    o.order_total = itemsSubTotal items_data + deliveryCharge delivery_option ∧
    o.order_requires_prescription = requiresRx ∧
    o.prescription_status = rxStatus requiresRx req.prescription_upload ∧
    o.order_number = none ∧
    o.status = OrderStatus.AWAITING_OTP_VERIFICATION ∧
    o.otp_code = some env.otp ∧
    o.otp_expiry = some (env.now + OTP_EXPIRY_MINUTES * 60) ∧
    o.is_otp_verified = false := by
  have hnoop : Order.save db.orders t
      (assembleOrder env.now userId newPk req items_data requiresRx address delivery_option) =
      assembleOrder env.now userId newPk req items_data requiresRx address delivery_option :=
    Order.save_of_pk_some _ _ _ (by simp [assembleOrder])
  simp only [create] at h
  split at h
  next hcond =>
    simp only [Except.ok.injEq, Prod.mk.injEq] at h
    obtain ⟨ho, -⟩ := h
    obtain ⟨hsms, -, hfst⟩ := send_order_otp_sent _ _ hcond
    rw [hfst] at ho
    subst ho
    refine ⟨hsms, ?_, ?_, ?_, ?_, ?_, ?_, rfl, rfl, rfl, rfl⟩ <;>
      simp only [applyPrescription_sub_total, applyPrescription_delivery_charge,
        applyPrescription_order_total, applyPrescription_requires_rx,
        applyPrescription_rx_status, applyPrescription_order_number,
        Order.save_sub_total, Order.save_delivery_charge, Order.save_order_total,
        Order.save_requires_rx, Order.save_rx_status, hnoop] <;> rfl
  next hcond =>
    exact Except.noConfusion h

/-- A successful orderCreate factors through the three validation stages and
the atomic create body. -/
theorem orderCreate_ok_inv (catalog : List Product) (addresses : List Address)
    (options : List DeliveryOption) (db : DB) (t : Today) (env : OtpEnv)
    (userId newPk : ℕ) (req : CreateRequest) (o : Order) (db' : DB)
    (h : orderCreate catalog addresses options db t env userId newPk req = .ok (o, db')) :
    ∃ items_data requiresRx delivery_option address,
      validate_items catalog req.items = .ok (items_data, requiresRx) ∧
      validate_delivery_option_id options req.delivery_option_id = .ok delivery_option ∧
      validateObject addresses userId requiresRx req = .ok address ∧
      create db t env userId newPk req items_data requiresRx address delivery_option =
        .ok (o, db') := by
  unfold orderCreate at h
  cases h1 : validate_items catalog req.items with
  | error e =>
    simp only [h1] at h
    exact Except.noConfusion h
  | ok p =>
    obtain ⟨items_data, requiresRx⟩ := p
    simp only [h1] at h
    cases h2 : validate_delivery_option_id options req.delivery_option_id with
    | error e =>
      simp only [h2] at h
      exact Except.noConfusion h
    | ok delivery_option =>
      simp only [h2] at h
      cases h3 : validateObject addresses userId requiresRx req with
      | error e =>
        simp only [h3] at h
        exact Except.noConfusion h
      | ok address =>
        simp only [h3] at h
        exact ⟨items_data, requiresRx, delivery_option, address, rfl, rfl, h3, h⟩

/-- An ok response of the endpoint comes from an ok orderCreate with the
same order and committed database. -/
theorem orderCreateEndpoint_ok_inv (catalog : List Product) (addresses : List Address)
    (options : List DeliveryOption) (db : DB) (t : Today) (env : OtpEnv)
    (userId newPk : ℕ) (req : CreateRequest) (o : Order) (db' : DB)
    (h : orderCreateEndpoint catalog addresses options db t env userId newPk req =
      (.ok o, db')) :
    orderCreate catalog addresses options db t env userId newPk req = .ok (o, db') := by
  unfold orderCreateEndpoint at h
  cases hoc : orderCreate catalog addresses options db t env userId newPk req with
  | ok p =>
    obtain ⟨o2, db2⟩ := p
    simp only [hoc, Prod.mk.injEq, Except.ok.injEq] at h
    obtain ⟨rfl, rfl⟩ := h
    rfl
  | error e =>
    simp only [hoc, Prod.mk.injEq] at h
    exact absurd h.1 (by simp)

/-- An ok validate_items means the item list was non-empty and the loop
succeeded. -/
theorem validate_items_ok_loop (catalog : List Product) (items : List ItemInput)
    (r : List ValidatedItem × Bool) (h : validate_items catalog items = .ok r) :
    validateItemsLoop catalog items = .ok r := by
  unfold validate_items at h
  by_cases he : items.isEmpty = true
  · rw [if_pos he] at h
    exact Except.noConfusion h
  · rw [if_neg he] at h
    exact h

/-- Each validated item corresponds positionally to a request item: the sku
and quantity are taken over, the product resolves in the catalog, is
available, and its selling price becomes price_per_item. -/
theorem validateItemsLoop_resolves (catalog : List Product) :
    ∀ (items : List ItemInput) (vs : List ValidatedItem) (flag : Bool),
      validateItemsLoop catalog items = .ok (vs, flag) →
      List.Forall₂ (fun (it : ItemInput) (v : ValidatedItem) =>
        v.sku = it.sku ∧ v.quantity = it.quantity ∧
        ∃ p, skuLookup catalog it.sku = some p ∧ p.is_available = true ∧
          v.price_per_item = p.selling_price) items vs := by
  intro items
  induction items with
  | nil =>
    intro vs flag h
    simp only [validateItemsLoop, Except.ok.injEq, Prod.mk.injEq] at h
    obtain ⟨h1, -⟩ := h
    subst h1
    exact List.Forall₂.nil
  | cons item rest ih =>
    intro vs flag h
    simp only [validateItemsLoop] at h
    cases hsk : skuLookup catalog item.sku with
    | none =>
      simp only [hsk] at h
      exact Except.noConfusion h
    | some info =>
      simp only [hsk] at h
      by_cases hav : info.is_available = false
      · rw [if_pos hav] at h
        exact Except.noConfusion h
      · rw [if_neg hav] at h
        cases hrest : validateItemsLoop catalog rest with
        | error e =>
          simp only [hrest] at h
          exact Except.noConfusion h
        | ok pr =>
          obtain ⟨vs', flag'⟩ := pr
          simp only [hrest, Except.ok.injEq, Prod.mk.injEq] at h
          obtain ⟨h1, -⟩ := h
          subst h1
          refine List.Forall₂.cons ⟨rfl, rfl, info, hsk, ?_, rfl⟩ (ih vs' flag' hrest)
          revert hav
          cases info.is_available <;> simp

/-- The side flag of validate_items is true exactly when some request item
resolves to a prescription-requiring product. -/
theorem validateItemsLoop_flag (catalog : List Product) :
    ∀ (items : List ItemInput) (vs : List ValidatedItem) (flag : Bool),
      validateItemsLoop catalog items = .ok (vs, flag) →
      (flag = true ↔ ∃ it ∈ items, ∃ p, skuLookup catalog it.sku = some p ∧
        p.requires_prescription = true) := by
  intro items
  induction items with
  | nil =>
    intro vs flag h
    simp only [validateItemsLoop, Except.ok.injEq, Prod.mk.injEq] at h
    obtain ⟨-, h2⟩ := h
    subst h2
    simp
  | cons item rest ih =>
    intro vs flag h
    simp only [validateItemsLoop] at h
    cases hsk : skuLookup catalog item.sku with
    | none =>
      simp only [hsk] at h
      exact Except.noConfusion h
    | some info =>
      simp only [hsk] at h
      by_cases hav : info.is_available = false
      · rw [if_pos hav] at h
        exact Except.noConfusion h
      · rw [if_neg hav] at h
        cases hrest : validateItemsLoop catalog rest with
        | error e =>
          simp only [hrest] at h
          exact Except.noConfusion h
        | ok pr =>
          obtain ⟨vs', flag'⟩ := pr
          simp only [hrest, Except.ok.injEq, Prod.mk.injEq] at h
          obtain ⟨-, h2⟩ := h
          subst h2
          rw [Bool.or_eq_true, ih vs' flag' hrest]
          simp only [List.mem_cons, exists_eq_or_imp, hsk, Option.some.injEq]
          constructor
          · rintro (hrx | hex)
            · exact Or.inl ⟨info, rfl, hrx⟩
            · exact Or.inr hex
          · rintro (⟨p, hp, hrx⟩ | hex)
            · subst hp
              exact Or.inl hrx
            · exact Or.inr hex

/-- A resolved delivery option is active and matches the requested id. -/
theorem validate_delivery_some_inv (options : List DeliveryOption) (v : ℕ)
    (d : DeliveryOption)
    (h : validate_delivery_option_id options (some v) = .ok (some d)) :
    d.is_active = true ∧ d.pk = v := by
  unfold validate_delivery_option_id at h
  cases hf : options.find? (fun dd => dd.pk == v && dd.is_active) with
  | none =>
    simp only [hf] at h
    exact Except.noConfusion h
  | some dd =>
    simp only [hf, Except.ok.injEq, Option.some.injEq] at h
    subst h
    have hp := List.find?_some hf
    simp only [Bool.and_eq_true, beq_iff_eq] at hp
    exact ⟨hp.2, hp.1⟩

/-- With no delivery-option id the validator returns no option. -/
theorem validate_delivery_none_inv (options : List DeliveryOption)
    (dopt : Option DeliveryOption)
    (h : validate_delivery_option_id options none = .ok dopt) : dopt = none := by
  simp only [validate_delivery_option_id, Except.ok.injEq] at h
  exact h.symm

/-- Claim C1: every committed order prices each item at the catalog selling
price of its sku, sets sub_total to the exact sum of price times quantity
over the resolved items, snapshots the chosen active delivery option's
base_charge (zero when no option id was supplied), and sets order_total to
exactly sub_total + delivery_charge_snapshot; the arithmetic is exact
integer arithmetic on minor currency units, with no rounding anywhere. -/
theorem C1_order_totals (catalog : List Product) (addresses : List Address)
    (options : List DeliveryOption) (db : DB) (t : Today) (env : OtpEnv)
    (userId newPk : ℕ) (req : CreateRequest) (o : Order) (db' : DB)
    (h : orderCreateEndpoint catalog addresses options db t env userId newPk req =
      (.ok o, db')) :
    ∃ items_data requiresRx delivery_option,
      validate_items catalog req.items = .ok (items_data, requiresRx) ∧
      List.Forall₂ (fun (it : ItemInput) (v : ValidatedItem) =>
        v.sku = it.sku ∧ v.quantity = it.quantity ∧
        ∃ p, skuLookup catalog it.sku = some p ∧ p.is_available = true ∧
          v.price_per_item = p.selling_price) req.items items_data ∧
      o.sub_total = itemsSubTotal items_data ∧
      validate_delivery_option_id options req.delivery_option_id = .ok delivery_option ∧
      o.delivery_charge_snapshot = deliveryCharge delivery_option ∧
      (req.delivery_option_id = none → o.delivery_charge_snapshot = 0) ∧
      (∀ d, delivery_option = some d → d.is_active = true ∧
        o.delivery_charge_snapshot = d.base_charge) ∧
      o.order_total = o.sub_total + o.delivery_charge_snapshot := by
  obtain ⟨items_data, requiresRx, delivery_option, address, h1, h2, h3, hcreate⟩ :=
    orderCreate_ok_inv catalog addresses options db t env userId newPk req o db'
      (orderCreateEndpoint_ok_inv catalog addresses options db t env userId newPk req o db' h)
  obtain ⟨-, hsub, hcharge, htotal, -⟩ :=
    create_ok_fields db t env userId newPk req items_data requiresRx address
      delivery_option o db' hcreate
  refine ⟨items_data, requiresRx, delivery_option, h1,
    validateItemsLoop_resolves catalog req.items items_data requiresRx
      (validate_items_ok_loop catalog req.items _ h1), hsub, h2, hcharge, ?_, ?_, ?_⟩
  · intro hnone
    rw [hnone] at h2
    rw [hcharge, validate_delivery_none_inv options delivery_option h2]
    rfl
  · intro d hd
    subst hd
    cases hoid : req.delivery_option_id with
    | none =>
      rw [hoid] at h2
      exact absurd (validate_delivery_none_inv options (some d) h2) (by simp)
    | some v =>
      rw [hoid] at h2
      obtain ⟨hact, -⟩ := validate_delivery_some_inv options v d h2
      exact ⟨hact, by rw [hcharge]; rfl⟩
  · rw [htotal, hsub, hcharge]

/-- Witness for C1: the concrete sampleReq run (two units of P1 at 100,
delivery option with charge 50) commits sub_total 200, charge 50, total 250. -/
theorem C1_witness :
    ∃ items_data requiresRx delivery_option,
      validate_items sampleCatalog sampleReq.items = .ok (items_data, requiresRx) ∧
      List.Forall₂ (fun (it : ItemInput) (v : ValidatedItem) =>
        v.sku = it.sku ∧ v.quantity = it.quantity ∧
        ∃ p, skuLookup sampleCatalog it.sku = some p ∧ p.is_available = true ∧
          v.price_per_item = p.selling_price) sampleReq.items items_data ∧
      sampleCreatedOrder.sub_total = itemsSubTotal items_data ∧
      validate_delivery_option_id [sampleOption] sampleReq.delivery_option_id =
        .ok delivery_option ∧
      sampleCreatedOrder.delivery_charge_snapshot = deliveryCharge delivery_option ∧
      (sampleReq.delivery_option_id = none →
        sampleCreatedOrder.delivery_charge_snapshot = 0) ∧
      (∀ d, delivery_option = some d → d.is_active = true ∧
        sampleCreatedOrder.delivery_charge_snapshot = d.base_charge) ∧
      sampleCreatedOrder.order_total =
        sampleCreatedOrder.sub_total + sampleCreatedOrder.delivery_charge_snapshot :=
  C1_order_totals sampleCatalog [] [sampleOption] emptyDB sampleToday sampleEnv 3 7
    sampleReq sampleCreatedOrder sampleDB1 (by decide)

/-- Claim C2: creation is all-or-nothing.  Whenever the endpoint reports an
error the database is exactly the pre-request one (no Order or OrderItem
row remains), and a failing synchronous OTP dispatch forces an error — so
the spec's parenthetical that the order row "has already been committed"
does not hold of the code: the ValidationError raised inside the
transaction.atomic block rolls the order row back. -/
theorem C2_all_or_nothing (catalog : List Product) (addresses : List Address)
    (options : List DeliveryOption) (db : DB) (t : Today) (env : OtpEnv)
    (userId newPk : ℕ) (req : CreateRequest) :
    (env.smsSuccess = false →
      isErr (orderCreateEndpoint catalog addresses options db t env userId newPk req).1 =
        true) ∧
    (isErr (orderCreateEndpoint catalog addresses options db t env userId newPk req).1 =
        true →
      (orderCreateEndpoint catalog addresses options db t env userId newPk req).2 = db) := by
  constructor
  · intro hsms
    cases hoc : orderCreate catalog addresses options db t env userId newPk req with
    | error e => simp [orderCreateEndpoint, hoc, isErr]
    | ok p =>
      obtain ⟨o, db'⟩ := p
      exfalso
      obtain ⟨items_data, requiresRx, delivery_option, address, -, -, -, hcreate⟩ :=
        orderCreate_ok_inv catalog addresses options db t env userId newPk req o db' hoc
      have hT := (create_ok_fields db t env userId newPk req items_data requiresRx
        address delivery_option o db' hcreate).1
      rw [hsms] at hT
      exact Bool.noConfusion hT
  · intro hErr
    cases hoc : orderCreate catalog addresses options db t env userId newPk req with
    | error e => simp [orderCreateEndpoint, hoc]
    | ok p =>
      obtain ⟨o, db'⟩ := p
      simp [orderCreateEndpoint, hoc, isErr] at hErr

/-- Witness for C2: the sampleReq run with a failing SMS gateway errors out
and leaves the database empty. -/
theorem C2_witness :
    isErr (orderCreateEndpoint sampleCatalog [] [sampleOption] emptyDB sampleToday
      sampleEnvSmsFail 3 7 sampleReq).1 = true ∧
    (orderCreateEndpoint sampleCatalog [] [sampleOption] emptyDB sampleToday
      sampleEnvSmsFail 3 7 sampleReq).2 = emptyDB := by
  have h := C2_all_or_nothing sampleCatalog [] [sampleOption] emptyDB sampleToday
    sampleEnvSmsFail 3 7 sampleReq
  exact ⟨h.1 rfl, h.2 (h.1 rfl)⟩

/-- Claim C5: if some request item resolves to a prescription-requiring
product, the requires-prescription flag is set (one item taints the order),
every committed order carries order_requires_prescription = true, and a
request without a prescription file fails with the ValidationError naming
the prescription_upload field, leaving the database untouched. -/
theorem C5_prescription_gate (catalog : List Product) (addresses : List Address)
    (options : List DeliveryOption) (db : DB) (t : Today) (env : OtpEnv)
    (userId newPk : ℕ) (req : CreateRequest) (vs : List ValidatedItem) (flag : Bool)
    (hv : validate_items catalog req.items = .ok (vs, flag))
    (hitem : ∃ it, it ∈ req.items ∧ ∃ p, skuLookup catalog it.sku = some p ∧
      p.requires_prescription = true) :
    flag = true ∧
    (∀ o db', orderCreateEndpoint catalog addresses options db t env userId newPk req =
      (.ok o, db') → o.order_requires_prescription = true) ∧
    (req.prescription_upload = none → req.address_id = none →
      shippingProvided req = true →
      ∀ dopt, validate_delivery_option_id options req.delivery_option_id = .ok dopt →
        orderCreateEndpoint catalog addresses options db t env userId newPk req =
          (.error "prescription_upload: Prescription file required.", db)) := by
  have hflag : flag = true :=
    (validateItemsLoop_flag catalog req.items vs flag
      (validate_items_ok_loop catalog req.items _ hv)).mpr
      (by obtain ⟨it, hm, hp⟩ := hitem; exact ⟨it, hm, hp⟩)
  refine ⟨hflag, ?_, ?_⟩
  · intro o db' h
    obtain ⟨items_data, requiresRx, delivery_option, address, h1, -, -, hcreate⟩ :=
      orderCreate_ok_inv catalog addresses options db t env userId newPk req o db'
        (orderCreateEndpoint_ok_inv catalog addresses options db t env userId newPk
          req o db' h)
    rw [hv] at h1
    simp only [Except.ok.injEq, Prod.mk.injEq] at h1
    obtain ⟨-, hfl⟩ := h1
    have hreq := (create_ok_fields db t env userId newPk req items_data requiresRx
      address delivery_option o db' hcreate).2.2.2.2.1
    rw [hreq, ← hfl, hflag]
  · intro hup haddr hship dopt hd
    have hobj : validateObject addresses userId flag req =
        .error "prescription_upload: Prescription file required." := by
      unfold validateObject
      rw [if_neg (by simp [haddr]), if_neg (by simp [haddr, hship])]
      simp only [haddr]
      rw [if_pos (by simp [hflag, hup])]
    unfold orderCreateEndpoint orderCreate
    simp only [hv, hd, hobj]

/-- Witness for C5: the concrete rxReq (one unit of prescription-requiring
P2, no uploaded file) has the flag set and is rejected with the
prescription_upload error, committing nothing. -/
theorem C5_witness :
    validate_items sampleCatalog rxReq.items =
      .ok ([{ sku := "P2", quantity := 1, product_id := 2, price_per_item := 50,
              product_name_snapshot := "Augmentin" }], true) ∧
    orderCreateEndpoint sampleCatalog [] [] emptyDB sampleToday sampleEnv 3 7 rxReq =
      (.error "prescription_upload: Prescription file required.", emptyDB) := by
  have h := C5_prescription_gate sampleCatalog [] [] emptyDB sampleToday sampleEnv 3 7
    rxReq
    [{ sku := "P2", quantity := 1, product_id := 2, price_per_item := 50,
       product_name_snapshot := "Augmentin" }] true (by decide)
    ⟨{ sku := "P2", quantity := 1 }, by decide, rxProduct, by decide, rfl⟩
  exact ⟨by decide, h.2.2 rfl rfl (by decide) none (by decide)⟩

/-- Claim C6: no order committed through the creation endpoint ever carries
an order number.  The UUID primary-key default is applied when the model
instance is constructed, so the save() guard (not self.order_number and not
self.pk) is always false and the YYMMDD-NNNN allocator never runs. -/
theorem C6_order_number_never_allocated (catalog : List Product)
    (addresses : List Address) (options : List DeliveryOption) (db : DB) (t : Today)
    (env : OtpEnv) (userId newPk : ℕ) (req : CreateRequest) (o : Order) (db' : DB)
    (h : orderCreateEndpoint catalog addresses options db t env userId newPk req =
      (.ok o, db')) :
    o.order_number = none := by
  obtain ⟨items_data, requiresRx, delivery_option, address, -, -, -, hcreate⟩ :=
    orderCreate_ok_inv catalog addresses options db t env userId newPk req o db'
      (orderCreateEndpoint_ok_inv catalog addresses options db t env userId newPk
        req o db' h)
  exact (create_ok_fields db t env userId newPk req items_data requiresRx address
    delivery_option o db' hcreate).2.2.2.2.2.2.1

/-- Witness for C6: the concrete successful sampleReq creation commits an
order whose order_number is NULL. -/
theorem C6_witness :
    orderCreateEndpoint sampleCatalog [] [sampleOption] emptyDB sampleToday sampleEnv
      3 7 sampleReq = (.ok sampleCreatedOrder, sampleDB1) ∧
    sampleCreatedOrder.order_number = none :=
  ⟨by decide,
   C6_order_number_never_allocated sampleCatalog [] [sampleOption] emptyDB sampleToday
     sampleEnv 3 7 sampleReq sampleCreatedOrder sampleDB1 (by decide)⟩

/-- Claim C9: on every committed order the prescription status is
PENDING_VERIFICATION when the order requires a prescription and a file was
supplied, PENDING_UPLOAD when it requires one and no file was supplied, and
NOT_REQUIRED whenever no prescription is required, whether or not a file
was uploaded. -/
theorem C9_prescription_status (catalog : List Product) (addresses : List Address)
    (options : List DeliveryOption) (db : DB) (t : Today) (env : OtpEnv)
    (userId newPk : ℕ) (req : CreateRequest) (o : Order) (db' : DB)
    (h : orderCreateEndpoint catalog addresses options db t env userId newPk req =
      (.ok o, db')) :
    (o.order_requires_prescription = true ∧ req.prescription_upload.isSome = true →
      o.prescription_status = PrescriptionStatus.PENDING_VERIFICATION) ∧
    (o.order_requires_prescription = true ∧ req.prescription_upload = none →
      o.prescription_status = PrescriptionStatus.PENDING_UPLOAD) ∧
    (o.order_requires_prescription = false →
      o.prescription_status = PrescriptionStatus.NOT_REQUIRED) := by
  obtain ⟨items_data, requiresRx, delivery_option, address, -, -, -, hcreate⟩ :=
    orderCreate_ok_inv catalog addresses options db t env userId newPk req o db'
      (orderCreateEndpoint_ok_inv catalog addresses options db t env userId newPk
        req o db' h)
  obtain ⟨-, -, -, -, hreq, hrx, -⟩ :=
    create_ok_fields db t env userId newPk req items_data requiresRx address
      delivery_option o db' hcreate
  rw [hreq, hrx]
  unfold rxStatus
  refine ⟨?_, ?_, ?_⟩
  · rintro ⟨h1, h2⟩
    rw [if_pos (by simp [h1, h2])]
  · rintro ⟨h1, h2⟩
    rw [if_neg (by simp [h2]), if_pos (by simp [h1])]
  · intro h1
    rw [if_neg (by simp [h1]), if_neg (by simp [h1])]

/-- Witness for C9: the committed sampleReq order requires no prescription
and its status is NOT_REQUIRED even though no file was uploaded. -/
theorem C9_witness :
    sampleCreatedOrder.prescription_status = PrescriptionStatus.NOT_REQUIRED :=
  (C9_prescription_status sampleCatalog [] [sampleOption] emptyDB sampleToday sampleEnv
    3 7 sampleReq sampleCreatedOrder sampleDB1 (by decide)).2.2 (by decide)

end Pharmacy
